import Mathlib

/-!
# UsdObjectReader (source/blender/io/usd/intern/usd_reader_object.cc)

A shallow embedding of the base class of the USD importer's prim readers.

* `double` and `float` are carrier types `D` and `F`: nothing below assumes
  anything about their arithmetic unless a theorem says so, hence every
  statement holds for IEEE-754 arithmetic as well as for exact arithmetic.
* `float[4][4]`, `double[4][4]` and `pxr::GfMatrix4d` are `M44`, indexed
  `m i j` like the C expression `m[i][j]`.
* Pointers are addresses, `0` being `nullptr`.
* An out-parameter is an argument (the value before the call) and a
  component of the result (the value after the call).
-/

namespace blender.io.usd

/-! ## Matrices -/

/-- A 4x4 array of scalars; `m i j` is the C expression `m[i][j]`. -/
abbrev M44 (α : Type) := Fin 4 → Fin 4 → α

/-- The assignment `m[i][j] = v`. -/
def M44.set {α : Type} (m : M44 α) (i j : Fin 4) (v : α) : M44 α :=
  fun a b => if a = i ∧ b = j then v else m a b

/-- The index range of `for (int i = 0; i < 4; ++i)`. -/
def range4 : List (Fin 4) := [0, 1, 2, 3]

/-- Modelled from the spec: `unit_m4` (BLI_math_matrix, absent from src/), the
"identity transform default": ones on the diagonal, zeros elsewhere. -/
def unit_m4 {F : Type} [Zero F] [One F] : M44 F :=
  fun i j => if i = j then 1 else 0

/-- The value `GfMatrix4d::operator*` computes (pxr library, absent from src/):
the row-by-column product, each entry summed left to right. -/
def GfMatrix4d.mul {D : Type} [Add D] [Mul D] (a b : M44 D) : M44 D :=
  fun i j => a i 0 * b 0 j + a i 1 * b 1 j + a i 2 * b 2 j + a i 3 * b 3 j

/-- A point as a row vector `(x, y, z, w)`. -/
abbrev GfVec4d (α : Type) := Fin 4 → α

/-- USD's row-vector convention: the point `p` is mapped to `p * m`. -/
def GfVec4d.mulMatrix {D : Type} [Add D] [Mul D] (p : GfVec4d D) (m : M44 D) : GfVec4d D :=
  fun j => p 0 * m 0 j + p 1 * m 1 j + p 2 * m 2 j + p 3 * m 3 j

/-! ## The USD stage, as far as the reader looks at it -/

/-- The axis tokens of `pxr::UsdGeomTokens`. -/
inductive TfToken where
  | x
  | y
  | z
  deriving DecidableEq, Repr

/-- The axis swap modes of usd_util.h (absent from src/). -/
inductive UsdAxisSwapMode where
  | USD_ZUP_FROM_YUP
  | USD_YUP_FROM_ZUP
  deriving DecidableEq, Repr

/-- A `pxr::UsdGeomXformable`: what `GetLocalTransformation(&xf, &reset, time)`
writes to `xf` and to `reset` for each time. -/
structure UsdGeomXformable (D : Type) where
  GetLocalTransformation : D → M44 D × Bool

/-- A `pxr::UsdPrim`. `xformable` is `none` when the prim does not conform to
the Xformable schema; the invalid prim is what `GetParent` gives at the root. -/
inductive UsdPrim (D : Type) where
  | invalid : UsdPrim D
  | valid (path name : String) (xformable : Option (UsdGeomXformable D))
      (parent : UsdPrim D) : UsdPrim D

namespace UsdPrim

/-- The call `prim.GetPath().GetString()`. -/
def GetPath {D : Type} : UsdPrim D → String
  | invalid => ""
  | valid path _ _ _ => path

/-- The call `prim.GetName().GetString()`. -/
def GetName {D : Type} : UsdPrim D → String
  | invalid => ""
  | valid _ name _ _ => name

/-- The call `prim.GetParent()`. -/
def GetParent {D : Type} : UsdPrim D → UsdPrim D
  | invalid => invalid
  | valid _ _ _ parent => parent

/-- The conversion of a prim to `bool`. -/
def IsValid {D : Type} : UsdPrim D → Bool
  | invalid => false
  | valid _ _ _ _ => true

/-- The construction `pxr::UsdGeomXformable xformable(prim)`: `none` when the
schema object converts to `false`. -/
def asXformable {D : Type} : UsdPrim D → Option (UsdGeomXformable D)
  | invalid => none
  | valid _ _ xformable _ => xformable

end UsdPrim

/-! ## The reader -/

/-- The import parameters the reader uses. -/
structure USDImportParams (F : Type) where
  scale : F

/-- The importer context the reader uses. -/
structure USDImporterContext (F : Type) where
  stage_up_axis : TfToken
  (import_params : USDImportParams F)

/-- The data members of `UsdObjectReader`. -/
structure UsdObjectReader (D F : Type) where
  prim_path_ : String
  prim_parent_name_ : String
  prim_name_ : String
  object_ : Nat
  prim_ : UsdPrim D
  context_ : USDImporterContext F
  min_time_ : D
  max_time_ : D
  refcount_ : Int
  parent_ : Nat
  merged_with_parent_ : Bool

/-- The Blender math routines `read_matrix` calls (usd_util, BLI_math_matrix;
absent from src/), each as the value it writes to its first argument. -/
structure BlenderMath (F : Type) where
  copy_m44_axis_swap : M44 F → UsdAxisSwapMode → M44 F
  scale_m4_fl : F → M44 F
  mul_m4_m4m4 : M44 F → M44 F → M44 F

/-- The constructor of `UsdObjectReader`. `dbl_max` and `dbl_min` are
`std::numeric_limits<double>::max()` and `std::numeric_limits<double>::min()`. -/
def UsdObjectReader.ctor {D F : Type} (dbl_max dbl_min : D)
    (prim : UsdPrim D) (context : USDImporterContext F) : UsdObjectReader D F :=
  let parent := prim.GetParent
  { prim_path_ := prim.GetPath
    prim_parent_name_ := if parent.IsValid then parent.GetName else prim.GetName
    prim_name_ := prim.GetName
    object_ := 0
    prim_ := prim
    context_ := context
    min_time_ := dbl_max
    max_time_ := dbl_min
    refcount_ := 0
    parent_ := 0
    merged_with_parent_ := false }

/-- The method `UsdObjectReader::prim`. -/
def UsdObjectReader.prim {D F : Type} (self : UsdObjectReader D F) : UsdPrim D :=
  self.prim_

/-- The method `UsdObjectReader::object`. -/
def UsdObjectReader.object {D F : Type} (self : UsdObjectReader D F) : Nat :=
  self.object_

/-- The method `UsdObjectReader::setObject`. -/
def UsdObjectReader.setObject {D F : Type} (self : UsdObjectReader D F) (ob : Nat) :
    UsdObjectReader D F :=
  { self with object_ := ob }

/-- The method `UsdObjectReader::read_mesh`. `err_str` is the string pointer
the argument points to; the result is the returned mesh, the reader after the
call and that string pointer after the call. -/
def UsdObjectReader.read_mesh {D F : Type} (self : UsdObjectReader D F)
    (existing_mesh : Nat) (_time : D) (_read_flag : Int) (err_str : Nat) :
    Nat × UsdObjectReader D F × Nat :=
  (existing_mesh, self, err_str)

/-- The method `UsdObjectReader::topology_changed`. -/
def UsdObjectReader.topology_changed {D F : Type} (_self : UsdObjectReader D F)
    (_existing_mesh : Nat) (_time : D) : Bool :=
  false

/-- The conversion loop of `read_matrix`:
`for i < 4, for j < 4: r_mat[i][j] = static_cast<float>(double_mat[i][j])`. -/
def castLoop {D F : Type} (toFloat : D → F) (double_mat : M44 D) (r_mat : M44 F) : M44 F :=
  range4.foldl
    (fun r i => range4.foldl (fun r j => r.set i j (toFloat (double_mat i j))) r)
    r_mat

/-- Lines 132-146 of `read_matrix`: the value of `usd_local_xf` when the
conversion to `double_mat` starts, for a prim whose schema object is
`xformable`. -/
def UsdObjectReader.usd_local_xf {D F : Type} [Add D] [Mul D]
    (self : UsdObjectReader D F) (xformable : UsdGeomXformable D) (time : D) : M44 D :=
  let (usd_local_xf, _reset_xform_stack) := xformable.GetLocalTransformation time
  if self.merged_with_parent_ then
    match self.prim_.GetParent.asXformable with
    | some parent_xformable =>
      let (usd_parent_local_xf, _reset_xform_stack) :=
        parent_xformable.GetLocalTransformation time
      GfMatrix4d.mul usd_parent_local_xf usd_local_xf
    | none => usd_local_xf
  else usd_local_xf

/-- The method `UsdObjectReader::read_matrix`; the result is `r_mat` and
`is_constant` after the call. `toFloat` is `static_cast<float>`. -/
def UsdObjectReader.read_matrix {D F : Type} [Add D] [Mul D] [Zero F] [One F]
    (math : BlenderMath F) (toFloat : D → F)
    (self : UsdObjectReader D F) (r_mat : M44 F) (time : D) (scale : F)
    (is_constant : Bool) : M44 F × Bool :=
  match self.prim_.asXformable with
  | none => (unit_m4, true)
  | some xformable =>
    let usd_local_xf := self.usd_local_xf xformable time
    let double_mat := usd_local_xf
    let r_mat := castLoop toFloat double_mat r_mat
    let r_mat :=
      if self.context_.stage_up_axis = TfToken.y then
        math.copy_m44_axis_swap r_mat UsdAxisSwapMode.USD_ZUP_FROM_YUP
      else r_mat
    let scale_mat := math.scale_m4_fl scale
    let r_mat := math.mul_m4_m4m4 scale_mat r_mat
    (r_mat, is_constant)

/-- A call `setupObjectTransform` makes, with its arguments. -/
inductive Call (D F : Type) where
  | read_matrix (time : D) (scale : F)
  | BKE_object_apply_mat4 (ob : Nat) (mat : M44 F) (use_compat use_parent : Bool)
  | BKE_object_to_mat4 (ob : Nat)

/-- What one run of `setupObjectTransform` does: the reader after the call,
the calls made in order, and the locals `is_constant` and `transform_from_usd`
at the end of the body (`none` when the body returned before declaring them). -/
structure SetupResult (D F : Type) where
  self : UsdObjectReader D F
  calls : List (Call D F)
  locals : Option (Bool × M44 F)

/-- The method `UsdObjectReader::setupObjectTransform`. `uninit` stands for the
indeterminate contents of the local array `transform_from_usd`. -/
def UsdObjectReader.setupObjectTransform {D F : Type} [Add D] [Mul D] [Zero F] [One F]
    (math : BlenderMath F) (toFloat : D → F)
    (self : UsdObjectReader D F) (uninit : M44 F) (time : D) : SetupResult D F :=
  if self.object_ = 0 then
    { self := self, calls := [], locals := none }
  else
    let is_constant := false
    let transform_from_usd := uninit
    let (transform_from_usd, is_constant) :=
      self.read_matrix math toFloat transform_from_usd time
        self.context_.import_params.scale is_constant
    { self := self
      calls :=
        [Call.read_matrix time self.context_.import_params.scale,
         Call.BKE_object_apply_mat4 self.object_ transform_from_usd true false,
         Call.BKE_object_to_mat4 self.object_]
      locals := some (is_constant, transform_from_usd) }

/-- The method `UsdObjectReader::minTime`. -/
def UsdObjectReader.minTime {D F : Type} (self : UsdObjectReader D F) : D :=
  self.min_time_

/-- The method `UsdObjectReader::maxTime`. -/
def UsdObjectReader.maxTime {D F : Type} (self : UsdObjectReader D F) : D :=
  self.max_time_

/-- The value an `int` holds after a computation whose exact result is `x`:
32 bits, two's complement, wrapping around where C++ leaves the overflow
undefined. -/
def wrapInt (x : Int) : Int :=
  (x + 2147483648) % 4294967296 - 2147483648

/-- The method `UsdObjectReader::refcount`. -/
def UsdObjectReader.refcount {D F : Type} (self : UsdObjectReader D F) : Int :=
  self.refcount_

/-- The method `UsdObjectReader::incref`. -/
def UsdObjectReader.incref {D F : Type} (self : UsdObjectReader D F) : UsdObjectReader D F :=
  { self with refcount_ := wrapInt (self.refcount_ + 1) }

/-- The method `UsdObjectReader::decref`: the reader after the call and whether
`BLI_assert(refcount_ >= 0)` held. -/
def UsdObjectReader.decref {D F : Type} (self : UsdObjectReader D F) :
    UsdObjectReader D F × Bool :=
  let self := { self with refcount_ := wrapInt (self.refcount_ - 1) }
  (self, decide (self.refcount_ ≥ 0))

/-- A reference-counting call. -/
inductive RefCall where
  | incref
  | decref
  deriving DecidableEq, Repr

/-- A sequence of `incref` and `decref` calls on one reader: the reader at the
end and whether every assertion along the way held. -/
def runRefCalls {D F : Type} : List RefCall → UsdObjectReader D F → UsdObjectReader D F × Bool
  | [], self => (self, true)
  | RefCall.incref :: calls, self => runRefCalls calls self.incref
  | RefCall.decref :: calls, self =>
    let (self, ok) := self.decref
    let (self, oks) := runRefCalls calls self
    (self, ok && oks)

/-- A call of one of the methods that assign to a member of the reader. -/
inductive ReaderCall where
  | setObject (ob : Nat)
  | incref
  | decref
  deriving DecidableEq, Repr

/-- Whether the call is a `setObject`. -/
def ReaderCall.isSetObject : ReaderCall → Bool
  | ReaderCall.setObject _ => true
  | ReaderCall.incref => false
  | ReaderCall.decref => false

/-- The reader after one call. -/
def ReaderCall.apply {D F : Type} (self : UsdObjectReader D F) :
    ReaderCall → UsdObjectReader D F
  | ReaderCall.setObject ob => self.setObject ob
  | ReaderCall.incref => self.incref
  | ReaderCall.decref => self.decref.1

/-- The reader after a sequence of calls. -/
def runCalls {D F : Type} (self : UsdObjectReader D F) (calls : List ReaderCall) :
    UsdObjectReader D F :=
  calls.foldl ReaderCall.apply self

/-! ## The specification's words for `read_matrix` -/

/-- The conversion `F` of the specification: `r[i][j] = float(M[i][j])`. -/
def specF {D F : Type} (toFloat : D → F) (m : M44 D) : M44 F :=
  fun i j => toFloat (m i j)

/-- The conversion `A` of the specification: the axis swap when the stage is
y-up, the identity otherwise. -/
def specA {F : Type} (math : BlenderMath F) (stage_up_axis : TfToken) (x : M44 F) : M44 F :=
  if stage_up_axis = TfToken.y then
    math.copy_m44_axis_swap x UsdAxisSwapMode.USD_ZUP_FROM_YUP
  else x

/-- The product `S * X` of the specification: the uniform scale matrix as the
left factor of `mul_m4_m4m4`. -/
def specS {F : Type} (math : BlenderMath F) (scale : F) (x : M44 F) : M44 F :=
  math.mul_m4_m4m4 (math.scale_m4_fl scale) x

/-! ## Sample data -/

/-- A stand-in for the Blender math routines over the integers: the axis swap
exchanges the y and z indices, the scale matrix is `diag(s, s, s, 1)` and the
product is `R[j][k] = sum_i B[j][i] * A[i][k]`. -/
def sampleMath : BlenderMath Int where
  copy_m44_axis_swap := fun m _ =>
    let sw : Fin 4 → Fin 4 := fun i => if i = 1 then 2 else if i = 2 then 1 else i
    fun i j => m (sw i) (sw j)
  scale_m4_fl := fun s => fun i j => if i = j then (if i = 3 then 1 else s) else 0
  mul_m4_m4m4 := fun a b => GfMatrix4d.mul b a

/-- A translation by `(x, y, z)`, in USD's layout (the translation is row 3). -/
def translateXf (x y z : Int) : M44 Int :=
  fun i j => if i = j then 1 else if i = 3 then (if j = 0 then x else if j = 1 then y else z) else 0

/-- A uniform scale by `s`. -/
def scaleXf (s : Int) : M44 Int :=
  fun i j => if i = j then (if i = 3 then 1 else s) else 0

/-- The schema object of `sampleParent`: a scale by 2 at every time. -/
def sampleParentXf : UsdGeomXformable Int :=
  ⟨fun _ => (scaleXf 2, false)⟩

/-- The schema object of `sampleMesh`: a translation by `(1, 0, 0)` at every time. -/
def sampleMeshXf : UsdGeomXformable Int :=
  ⟨fun _ => (translateXf 1 0 0, false)⟩

/-- A parent Xform that scales by 2. -/
def sampleParent : UsdPrim Int :=
  UsdPrim.valid "/root" "root" (some sampleParentXf) UsdPrim.invalid

/-- A mesh under `sampleParent` translated by `(1, 0, 0)`. -/
def sampleMesh : UsdPrim Int :=
  UsdPrim.valid "/root/mesh" "mesh" (some sampleMeshXf) sampleParent

/-- A scope (not xformable) under `sampleParent`. -/
def sampleScope : UsdPrim Int :=
  UsdPrim.valid "/root/scope" "scope" none sampleParent

/-- A z-up context with import scale 1. -/
def sampleContext : USDImporterContext Int :=
  { stage_up_axis := TfToken.z, import_params := { scale := 1 } }

/-- A y-up context with import scale 3. -/
def sampleContextY : USDImporterContext Int :=
  { stage_up_axis := TfToken.y, import_params := { scale := 3 } }

/-- The reader of `sampleMesh`, as constructed. -/
def sampleReader : UsdObjectReader Int Int :=
  UsdObjectReader.ctor 1000 0 sampleMesh sampleContext

/-- The reader of `sampleMesh`, merged with its parent. -/
def sampleMergedReader : UsdObjectReader Int Int :=
  { sampleReader with merged_with_parent_ := true }

/-- The reader of a prim with the transformation of `sampleMesh` and no parent,
with `merged_with_parent_` set. -/
def sampleOrphanReader : UsdObjectReader Int Int :=
  { UsdObjectReader.ctor 1000 0
      (UsdPrim.valid "/mesh" "mesh" (some sampleMeshXf) UsdPrim.invalid) sampleContext with
    merged_with_parent_ := true }

/-- The reader of `sampleScope` in a y-up stage, merged with its parent. -/
def sampleScopeReader : UsdObjectReader Int Int :=
  { UsdObjectReader.ctor 1000 0 sampleScope sampleContextY with merged_with_parent_ := true }

/-- The reader of `sampleMesh` with the object at address 64 attached. -/
def sampleReaderWithObject : UsdObjectReader Int Int :=
  sampleMergedReader.setObject 64

/-- The reader of `sampleScope` with the object at address 64 attached. -/
def sampleScopeReaderWithObject : UsdObjectReader Int Int :=
  sampleScopeReader.setObject 64

/-- Reference-counting calls none of whose initial segments has more `decref`
than `incref` calls. -/
def sampleCalls : List RefCall :=
  [RefCall.incref, RefCall.incref, RefCall.decref, RefCall.incref, RefCall.decref,
   RefCall.decref, RefCall.incref]

/-- Calls before a `setObject`. -/
def sampleBefore : List ReaderCall :=
  [ReaderCall.incref, ReaderCall.setObject 32, ReaderCall.incref]

/-- Calls after a `setObject`, none of them a `setObject`. -/
def sampleAfter : List ReaderCall :=
  [ReaderCall.incref, ReaderCall.decref, ReaderCall.decref]

/-- The origin as a row vector. -/
def origin : GfVec4d Int :=
  fun j => if j = 3 then 1 else 0

/-! ## Auxiliary lemmas -/

theorem castLoop_eq {D F : Type} (toFloat : D → F) (double_mat : M44 D) (r_mat : M44 F) :
    castLoop toFloat double_mat r_mat = specF toFloat double_mat := by
  funext i j
  fin_cases i <;> fin_cases j <;> simp [castLoop, range4, M44.set, specF]

theorem read_matrix_some {D F : Type} [Add D] [Mul D] [Zero F] [One F]
    (math : BlenderMath F) (toFloat : D → F) (self : UsdObjectReader D F)
    (xformable : UsdGeomXformable D) (hx : self.prim_.asXformable = some xformable)
    (r_mat : M44 F) (time : D) (scale : F) (is_constant : Bool) :
    self.read_matrix math toFloat r_mat time scale is_constant =
      (specS math scale (specA math self.context_.stage_up_axis
        (specF toFloat (self.usd_local_xf xformable time))), is_constant) := by
  simp only [UsdObjectReader.read_matrix, hx, castLoop_eq, specS, specA]

theorem read_matrix_none {D F : Type} [Add D] [Mul D] [Zero F] [One F]
    (math : BlenderMath F) (toFloat : D → F) (self : UsdObjectReader D F)
    (hx : self.prim_.asXformable = none)
    (r_mat : M44 F) (time : D) (scale : F) (is_constant : Bool) :
    self.read_matrix math toFloat r_mat time scale is_constant = (unit_m4, true) := by
  simp only [UsdObjectReader.read_matrix, hx]

theorem usd_local_xf_merged {D F : Type} [Add D] [Mul D] (self : UsdObjectReader D F)
    (xformable parent_xformable : UsdGeomXformable D) (time : D)
    (hm : self.merged_with_parent_ = true)
    (hp : self.prim_.GetParent.asXformable = some parent_xformable) :
    self.usd_local_xf xformable time =
      GfMatrix4d.mul (parent_xformable.GetLocalTransformation time).1
        (xformable.GetLocalTransformation time).1 := by
  simp only [UsdObjectReader.usd_local_xf, hm, hp, if_true]

theorem usd_local_xf_unmerged {D F : Type} [Add D] [Mul D] (self : UsdObjectReader D F)
    (xformable : UsdGeomXformable D) (time : D)
    (h : self.merged_with_parent_ = false ∨ self.prim_.GetParent.asXformable = none) :
    self.usd_local_xf xformable time = (xformable.GetLocalTransformation time).1 := by
  rcases h with h | h
  · simp [UsdObjectReader.usd_local_xf, h]
  · simp only [UsdObjectReader.usd_local_xf, h]
    split <;> rfl

/-! ## read_matrix -/

/-- C1: for a reader whose prim is xformable, `read_matrix` writes
`r_mat = S * A(F(M))`: `M` is the product `parent_local * prim_local` (parent
on the left) when the reader is merged with its parent and the parent is
xformable, and `prim_local` otherwise; `F` converts entry by entry without
transposition; `A` is the axis swap for a y-up stage and the identity
otherwise; `S * X` is `mul_m4_m4m4(scale_m4_fl(scale), X)`. When the reader is
not merged or the parent is not xformable, the result is the same for every
reader with the same prim transformation and context, whatever its parent. -/
theorem read_matrix_xformable {D F : Type} [Add D] [Mul D] [Zero F] [One F]
    (math : BlenderMath F) (toFloat : D → F) (self : UsdObjectReader D F)
    (xformable : UsdGeomXformable D) (hx : self.prim_.asXformable = some xformable)
    (r_mat : M44 F) (time : D) (scale : F) (is_constant : Bool) :
    (∀ parent_xformable : UsdGeomXformable D,
      self.merged_with_parent_ = true →
      self.prim_.GetParent.asXformable = some parent_xformable →
      (self.read_matrix math toFloat r_mat time scale is_constant).1 =
        specS math scale (specA math self.context_.stage_up_axis
          (specF toFloat
            (GfMatrix4d.mul (parent_xformable.GetLocalTransformation time).1
              (xformable.GetLocalTransformation time).1)))) ∧
    ((self.merged_with_parent_ = false ∨ self.prim_.GetParent.asXformable = none) →
      (self.read_matrix math toFloat r_mat time scale is_constant).1 =
        specS math scale (specA math self.context_.stage_up_axis
          (specF toFloat (xformable.GetLocalTransformation time).1))) ∧
    ((self.merged_with_parent_ = false ∨ self.prim_.GetParent.asXformable = none) →
      ∀ other : UsdObjectReader D F,
        other.prim_.asXformable = some xformable →
        other.context_ = self.context_ →
        (other.merged_with_parent_ = false ∨ other.prim_.GetParent.asXformable = none) →
        (other.read_matrix math toFloat r_mat time scale is_constant).1 =
          (self.read_matrix math toFloat r_mat time scale is_constant).1) ∧
    (∀ (m : M44 D) (i j : Fin 4), specF toFloat m i j = toFloat (m i j)) := by
  refine ⟨?_, ?_, ?_, ?_⟩
  · intro parent_xformable hm hp
    rw [read_matrix_some math toFloat self xformable hx,
      usd_local_xf_merged self xformable parent_xformable time hm hp]
  · intro h
    rw [read_matrix_some math toFloat self xformable hx,
      usd_local_xf_unmerged self xformable time h]
  · intro h other hox hctx ho
    rw [read_matrix_some math toFloat self xformable hx,
      read_matrix_some math toFloat other xformable hox,
      usd_local_xf_unmerged self xformable time h,
      usd_local_xf_unmerged other xformable time ho, hctx]
  · intro m i j
    rfl

/-- Witness of C1: the merged sample reader, whose parent is xformable, and the
sample reader as constructed, which is not merged. -/
theorem read_matrix_xformable_witness :
    sampleMergedReader.prim_.asXformable = some sampleMeshXf ∧
    (sampleMergedReader.read_matrix sampleMath id unit_m4 0 1 false).1 =
      specS sampleMath 1 (specA sampleMath sampleMergedReader.context_.stage_up_axis
        (specF id (GfMatrix4d.mul (scaleXf 2) (translateXf 1 0 0)))) ∧
    sampleReader.prim_.asXformable = some sampleMeshXf ∧
    (sampleReader.read_matrix sampleMath id unit_m4 0 1 false).1 =
      specS sampleMath 1 (specA sampleMath sampleReader.context_.stage_up_axis
        (specF id (translateXf 1 0 0))) ∧
    (sampleOrphanReader.read_matrix sampleMath id unit_m4 0 1 false).1 =
      (sampleReader.read_matrix sampleMath id unit_m4 0 1 false).1 :=
  ⟨rfl,
    (read_matrix_xformable sampleMath id sampleMergedReader sampleMeshXf rfl
      unit_m4 0 1 false).1 sampleParentXf rfl rfl,
    rfl,
    (read_matrix_xformable sampleMath id sampleReader sampleMeshXf rfl
      unit_m4 0 1 false).2.1 (Or.inl rfl),
    (read_matrix_xformable sampleMath id sampleReader sampleMeshXf rfl
      unit_m4 0 1 false).2.2.1 (Or.inl rfl) sampleOrphanReader rfl rfl (Or.inr rfl)⟩

/-- C2: for a reader whose prim is not xformable, `read_matrix` sets `r_mat` to
the 4x4 identity and `is_constant` to true, whatever the time, the scale, the
stage up axis, the math routines, `merged_with_parent_` and the parent are. -/
theorem read_matrix_not_xformable {D F : Type} [Add D] [Mul D] [Zero F] [One F]
    (math : BlenderMath F) (toFloat : D → F) (self : UsdObjectReader D F)
    (hx : self.prim_.asXformable = none)
    (r_mat : M44 F) (time : D) (scale : F) (is_constant : Bool) :
    (self.read_matrix math toFloat r_mat time scale is_constant).2 = true ∧
    ∀ i j : Fin 4,
      (self.read_matrix math toFloat r_mat time scale is_constant).1 i j =
        if i = j then 1 else 0 := by
  rw [read_matrix_none math toFloat self hx]
  exact ⟨rfl, fun _ _ => rfl⟩

/-- Witness of C2: a scope in a y-up stage with import scale 3, merged with
an xformable parent. -/
theorem read_matrix_not_xformable_witness :
    sampleScopeReader.prim_.asXformable = none ∧
    (sampleScopeReader.read_matrix sampleMath id (scaleXf 7) 0 3 false).2 = true ∧
    ∀ i j : Fin 4,
      (sampleScopeReader.read_matrix sampleMath id (scaleXf 7) 0 3 false).1 i j =
        if i = j then 1 else 0 :=
  ⟨rfl, read_matrix_not_xformable sampleMath id sampleScopeReader rfl (scaleXf 7) 0 3 false⟩

/-! ## The default mesh reader -/

/-- C3: the default `read_mesh` returns the `existing_mesh` it was given (null
included), leaves the reader as it was and leaves the string `err_str` points
to as it was, for every time and every read flag. -/
theorem read_mesh_noop {D F : Type} (self : UsdObjectReader D F)
    (existing_mesh : Nat) (time : D) (read_flag : Int) (err_str : Nat) :
    (self.read_mesh existing_mesh time read_flag err_str).1 = existing_mesh ∧
    (self.read_mesh existing_mesh time read_flag err_str).2.1 = self ∧
    (self.read_mesh existing_mesh time read_flag err_str).2.2 = err_str ∧
    (self.read_mesh 0 time read_flag err_str).1 = 0 :=
  ⟨rfl, rfl, rfl, rfl⟩

/-- C4: the default `topology_changed` returns false for every mesh and every
time, and the default `read_mesh` returns the mesh it was given. -/
theorem topology_changed_false {D F : Type} (self : UsdObjectReader D F)
    (existing_mesh : Nat) (time : D) (read_flag : Int) (err_str : Nat) :
    self.topology_changed existing_mesh time = false ∧
    (self.read_mesh existing_mesh time read_flag err_str).1 = existing_mesh :=
  ⟨rfl, rfl⟩

/-! ## The object pointer -/

theorem runCalls_object_of_no_setObject {D F : Type} (calls : List ReaderCall) :
    ∀ self : UsdObjectReader D F,
      calls.all (fun c => !c.isSetObject) = true →
      (runCalls self calls).object_ = self.object_ := by
  induction calls with
  | nil => intro self _; rfl
  | cons c cs ih =>
    intro self h
    simp only [List.all_cons, Bool.and_eq_true] at h
    have hstep := ih (ReaderCall.apply self c) h.2
    simp only [runCalls, List.foldl_cons] at hstep ⊢
    rw [hstep]
    cases c with
    | setObject ob => simp [ReaderCall.isSetObject] at h
    | incref => rfl
    | decref => rfl

/-- C6: a freshly constructed reader has a null `object()`; after
`setObject(ob)`, `object()` is `ob` (null included); after any sequence of
`setObject`, `incref` and `decref` calls it is the argument of the most recent
`setObject`; and `setObject` changes no field other than `object_`. -/
theorem setObject_object {D F : Type} (dbl_max dbl_min : D) (prim : UsdPrim D)
    (context : USDImporterContext F) (self : UsdObjectReader D F) (ob : Nat) :
    (UsdObjectReader.ctor dbl_max dbl_min prim context).object = 0 ∧
    (self.setObject ob).object = ob ∧
    (self.setObject 0).object = 0 ∧
    (∀ before after : List ReaderCall,
      after.all (fun c => !c.isSetObject) = true →
      (runCalls self (before ++ ReaderCall.setObject ob :: after)).object = ob) ∧
    self.setObject ob = { self with object_ := ob } ∧
    ((self.setObject ob).refcount_ = self.refcount_ ∧
      (self.setObject ob).min_time_ = self.min_time_ ∧
      (self.setObject ob).max_time_ = self.max_time_ ∧
      (self.setObject ob).prim_path_ = self.prim_path_ ∧
      (self.setObject ob).prim_parent_name_ = self.prim_parent_name_ ∧
      (self.setObject ob).prim_name_ = self.prim_name_ ∧
      (self.setObject ob).merged_with_parent_ = self.merged_with_parent_) := by
  refine ⟨rfl, rfl, rfl, ?_, rfl, rfl, rfl, rfl, rfl, rfl, rfl, rfl⟩
  intro before after hafter
  have h := runCalls_object_of_no_setObject after
    ((runCalls self before).setObject ob) hafter
  simp only [runCalls, List.foldl_append, List.foldl_cons] at h ⊢
  exact h

/-- Witness of C6: on the sample reader, a `setObject(64)` preceded by three
calls and followed by three reference-counting calls. -/
theorem setObject_object_witness :
    sampleAfter.all (fun c => !c.isSetObject) = true ∧
    (runCalls sampleReader (sampleBefore ++ ReaderCall.setObject 64 :: sampleAfter)).object =
      64 :=
  ⟨by decide,
    (setObject_object (1000 : Int) 0 sampleMesh sampleContext sampleReader 64).2.2.2.1
      sampleBefore sampleAfter (by decide)⟩

/-! ## setupObjectTransform -/

/-- C8: without an object, `setupObjectTransform` makes no call and leaves the
reader as it was; with an object, it calls `read_matrix` with the time and
the import scale, and the matrix it applies to the object is the one that call
of `read_matrix` writes. -/
theorem setupObjectTransform_calls {D F : Type} [Add D] [Mul D] [Zero F] [One F]
    (math : BlenderMath F) (toFloat : D → F) (self : UsdObjectReader D F)
    (uninit : M44 F) (time : D) :
    (self.object = 0 →
      self.setupObjectTransform math toFloat uninit time =
        { self := self, calls := [], locals := none }) ∧
    (self.object ≠ 0 →
      (self.setupObjectTransform math toFloat uninit time).self = self ∧
      (self.setupObjectTransform math toFloat uninit time).calls =
        [Call.read_matrix time self.context_.import_params.scale,
         Call.BKE_object_apply_mat4 self.object
           (self.read_matrix math toFloat uninit time
             self.context_.import_params.scale false).1 true false,
         Call.BKE_object_to_mat4 self.object]) := by
  constructor
  · intro h
    have h0 : self.object_ = 0 := h
    simp only [UsdObjectReader.setupObjectTransform, h0, if_true]
  · intro h
    have h0 : ¬ self.object_ = 0 := h
    unfold UsdObjectReader.setupObjectTransform
    rw [if_neg h0]
    exact ⟨rfl, rfl⟩

/-- Witness of C8: the sample reader as constructed (no object) and the sample
reader with an object attached. -/
theorem setupObjectTransform_calls_witness :
    sampleReader.object = 0 ∧
    sampleReader.setupObjectTransform sampleMath id (scaleXf 7) 0 =
      { self := sampleReader, calls := [], locals := none } ∧
    sampleReaderWithObject.object ≠ 0 ∧
    (sampleReaderWithObject.setupObjectTransform sampleMath id (scaleXf 7) 0).calls =
      [Call.read_matrix 0 1,
       Call.BKE_object_apply_mat4 64
         (sampleReaderWithObject.read_matrix sampleMath id (scaleXf 7) 0 1 false).1 true false,
       Call.BKE_object_to_mat4 64] :=
  ⟨rfl, (setupObjectTransform_calls sampleMath id sampleReader (scaleXf 7) 0).1 rfl,
    by decide,
    ((setupObjectTransform_calls sampleMath id sampleReaderWithObject (scaleXf 7) 0).2
      (by decide)).2⟩

/-- C9: for an xformable prim `read_matrix` leaves `is_constant` as it was;
in `setupObjectTransform`, which starts it as false, `is_constant` after
`read_matrix` is false for an xformable prim and true exactly when the prim is
not xformable. -/
theorem read_matrix_is_constant {D F : Type} [Add D] [Mul D] [Zero F] [One F]
    (math : BlenderMath F) (toFloat : D → F) (self : UsdObjectReader D F)
    (r_mat uninit : M44 F) (time : D) (scale : F) :
    (self.prim_.asXformable.isSome = true →
      ∀ is_constant : Bool,
        (self.read_matrix math toFloat r_mat time scale is_constant).2 = is_constant) ∧
    (self.object ≠ 0 →
      ∃ is_constant transform_from_usd,
        (self.setupObjectTransform math toFloat uninit time).locals =
          some (is_constant, transform_from_usd) ∧
        (self.prim_.asXformable.isSome = true → is_constant = false) ∧
        (is_constant = true ↔ self.prim_.asXformable = none)) := by
  constructor
  · intro hx is_constant
    obtain ⟨xformable, hx⟩ := Option.isSome_iff_exists.mp hx
    rw [read_matrix_some math toFloat self xformable hx]
  · intro h
    have h0 : ¬ self.object_ = 0 := h
    refine ⟨(self.read_matrix math toFloat uninit time
        self.context_.import_params.scale false).2,
      (self.read_matrix math toFloat uninit time
        self.context_.import_params.scale false).1, ?_, ?_, ?_⟩
    · simp only [UsdObjectReader.setupObjectTransform, h0, if_false]
    · intro hx
      obtain ⟨xformable, hx⟩ := Option.isSome_iff_exists.mp hx
      rw [read_matrix_some math toFloat self xformable hx]
    · cases hx : self.prim_.asXformable with
      | none => rw [read_matrix_none math toFloat self hx]; simp
      | some xformable => rw [read_matrix_some math toFloat self xformable hx]; simp

/-- Witness of C9: the xformable sample mesh and the sample scope, each with
an object attached. -/
theorem read_matrix_is_constant_witness :
    sampleReaderWithObject.prim_.asXformable.isSome = true ∧
    sampleReaderWithObject.object ≠ 0 ∧
    (sampleReaderWithObject.read_matrix sampleMath id unit_m4 0 1 true).2 = true ∧
    (sampleReaderWithObject.read_matrix sampleMath id unit_m4 0 1 false).2 = false ∧
    (∃ is_constant transform_from_usd,
      (sampleReaderWithObject.setupObjectTransform sampleMath id (scaleXf 7) 0).locals =
        some (is_constant, transform_from_usd) ∧
      (sampleReaderWithObject.prim_.asXformable.isSome = true → is_constant = false) ∧
      (is_constant = true ↔ sampleReaderWithObject.prim_.asXformable = none)) ∧
    sampleScopeReaderWithObject.object ≠ 0 ∧
    (∃ is_constant transform_from_usd,
      (sampleScopeReaderWithObject.setupObjectTransform sampleMath id (scaleXf 7) 0).locals =
        some (is_constant, transform_from_usd) ∧
      (sampleScopeReaderWithObject.prim_.asXformable.isSome = true → is_constant = false) ∧
      (is_constant = true ↔ sampleScopeReaderWithObject.prim_.asXformable = none)) :=
  ⟨rfl, by decide,
    (read_matrix_is_constant sampleMath id sampleReaderWithObject unit_m4 (scaleXf 7) 0 1).1
      rfl true,
    (read_matrix_is_constant sampleMath id sampleReaderWithObject unit_m4 (scaleXf 7) 0 1).1
      rfl false,
    (read_matrix_is_constant sampleMath id sampleReaderWithObject unit_m4 (scaleXf 7) 0 1).2
      (by decide),
    by decide,
    (read_matrix_is_constant sampleMath id sampleScopeReaderWithObject unit_m4 (scaleXf 7) 0 3).2
      (by decide)⟩

/-- C7: at the merged sample reader (a mesh translated by `(1, 0, 0)` under a
parent that scales by 2) the matrix `read_matrix` builds before the axis and
scale conversion is `parent_local * prim_local`, which differs from
`prim_local * parent_local`: it maps the origin to `(1, 0, 0)`, while the
prim's transformation followed by the parent's maps it to `(2, 0, 0)`. -/
theorem merged_usd_local_xf_sample :
    sampleMergedReader.merged_with_parent_ = true ∧
    sampleMergedReader.prim_.asXformable = some sampleMeshXf ∧
    sampleMergedReader.prim_.GetParent.asXformable = some sampleParentXf ∧
    sampleMergedReader.usd_local_xf sampleMeshXf 0 =
      GfMatrix4d.mul (scaleXf 2) (translateXf 1 0 0) ∧
    sampleMergedReader.usd_local_xf sampleMeshXf 0 ≠
      GfMatrix4d.mul (translateXf 1 0 0) (scaleXf 2) ∧
    GfVec4d.mulMatrix origin (sampleMergedReader.usd_local_xf sampleMeshXf 0) 0 = 1 ∧
    GfVec4d.mulMatrix (GfVec4d.mulMatrix origin (translateXf 1 0 0)) (scaleXf 2) 0 = 2 ∧
    GfVec4d.mulMatrix origin (GfMatrix4d.mul (translateXf 1 0 0) (scaleXf 2)) 0 = 2 ∧
    (sampleMergedReader.read_matrix sampleMath id unit_m4 0 1 false).1 3 0 = 1 ∧
    GfMatrix4d.mul (translateXf 1 0 0) (scaleXf 2) 3 0 = 2 := by
  refine ⟨rfl, rfl, rfl, rfl, ?_, by decide, by decide, by decide, by decide, by decide⟩
  intro h
  have h30 := congrFun (congrFun h 3) 0
  revert h30
  decide

/-! ## Reference counting -/

theorem wrapInt_eq_self (x : Int) (h0 : -2147483648 ≤ x) (h1 : x < 2147483648) :
    wrapInt x = x := by
  unfold wrapInt
  omega

theorem runRefCalls_eq {D F : Type} (calls : List RefCall) :
    ∀ self : UsdObjectReader D F,
      0 ≤ self.refcount_ →
      (∀ k : Nat, ((calls.take k).count RefCall.decref : Int) ≤
        self.refcount_ + ((calls.take k).count RefCall.incref : Int)) →
      self.refcount_ + (calls.count RefCall.incref : Int) < 2147483648 →
      runRefCalls calls self =
        ({ self with
            refcount_ := self.refcount_ + (calls.count RefCall.incref : Int) -
              (calls.count RefCall.decref : Int) }, true) := by
  induction calls with
  | nil =>
    intro self _ _ _
    simp [runRefCalls]
  | cons c cs ih =>
    intro self h0 hbal hov
    cases c with
    | incref =>
      have hcnt : (RefCall.incref :: cs).count RefCall.incref = cs.count RefCall.incref + 1 := by
        simp
      have hcntd : (RefCall.incref :: cs).count RefCall.decref = cs.count RefCall.decref := by
        simp
      rw [hcnt] at hov
      have hw : wrapInt (self.refcount_ + 1) = self.refcount_ + 1 :=
        wrapInt_eq_self _ (by omega) (by omega)
      have hrc : self.incref.refcount_ = self.refcount_ + 1 := hw
      have hbal2 : ∀ k : Nat, ((cs.take k).count RefCall.decref : Int) ≤
          self.incref.refcount_ + ((cs.take k).count RefCall.incref : Int) := by
        intro k
        have := hbal (k + 1)
        simp only [List.take_succ_cons] at this
        rw [hrc]
        have e1 : ((RefCall.incref :: cs.take k).count RefCall.incref) =
            (cs.take k).count RefCall.incref + 1 := by simp
        have e2 : ((RefCall.incref :: cs.take k).count RefCall.decref) =
            (cs.take k).count RefCall.decref := by simp
        rw [e1, e2] at this
        omega
      have hstep := ih self.incref (by omega) hbal2 (by omega)
      simp only [runRefCalls]
      rw [hstep, hcnt, hcntd]
      have hfield : self.incref = { self with refcount_ := self.refcount_ + 1 } := by
        simp only [UsdObjectReader.incref, hw]
      rw [hfield]
      simp only [Prod.mk.injEq, and_true]
      congr 1
      push_cast
      omega
    | decref =>
      have hcnt : (RefCall.decref :: cs).count RefCall.incref = cs.count RefCall.incref := by
        simp
      have hcntd : (RefCall.decref :: cs).count RefCall.decref = cs.count RefCall.decref + 1 := by
        simp
      rw [hcnt] at hov
      have h1 : 1 ≤ self.refcount_ := by
        have := hbal 1
        simpa using this
      have hw : wrapInt (self.refcount_ - 1) = self.refcount_ - 1 :=
        wrapInt_eq_self _ (by omega) (by omega)
      have hfield : self.decref = ({ self with refcount_ := self.refcount_ - 1 }, true) := by
        simp only [UsdObjectReader.decref, hw, Prod.mk.injEq, true_and]
        simp only [ge_iff_le, decide_eq_true_eq]
        omega
      have hbal2 : ∀ k : Nat, ((cs.take k).count RefCall.decref : Int) ≤
          (self.refcount_ - 1) + ((cs.take k).count RefCall.incref : Int) := by
        intro k
        have := hbal (k + 1)
        simp only [List.take_succ_cons] at this
        have e1 : ((RefCall.decref :: cs.take k).count RefCall.incref) =
            (cs.take k).count RefCall.incref := by simp
        have e2 : ((RefCall.decref :: cs.take k).count RefCall.decref) =
            (cs.take k).count RefCall.decref + 1 := by simp
        rw [e1, e2] at this
        omega
      have hstep := ih { self with refcount_ := self.refcount_ - 1 } (by simp; omega) hbal2
        (by simp; omega)
      simp only [runRefCalls]
      rw [hfield]
      simp only
      rw [hstep, hcnt, hcntd]
      simp only [Bool.and_self, Prod.mk.injEq, and_true]
      congr 1
      push_cast
      omega

theorem runRefCalls_fresh {D F : Type} (self : UsdObjectReader D F) (h0 : self.refcount_ = 0)
    (calls : List RefCall)
    (hbal : ∀ k : Nat, k ≤ calls.length →
      (calls.take k).count RefCall.decref ≤ (calls.take k).count RefCall.incref)
    (hov : calls.count RefCall.incref < 2147483648) :
    runRefCalls calls self =
      ({ self with
          refcount_ := (calls.count RefCall.incref : Int) - (calls.count RefCall.decref : Int) },
        true) := by
  have hbal2 : ∀ k : Nat, ((calls.take k).count RefCall.decref : Int) ≤
      self.refcount_ + ((calls.take k).count RefCall.incref : Int) := by
    intro k
    rw [h0]
    rcases Nat.le_total k calls.length with hk | hk
    · have := hbal k hk
      omega
    · have := hbal calls.length (le_refl _)
      rw [List.take_of_length_le hk]
      rw [List.take_length] at this
      omega
  have h := runRefCalls_eq calls self (by omega) hbal2 (by omega)
  rw [h, h0]
  simp

/-- C5: a freshly constructed reader has `refcount() = 0`; after a sequence of
`incref` and `decref` calls none of whose initial segments has more `decref`
than `incref` calls (and with fewer than 2^31 `incref` calls, so that the
`int` does not overflow), `refcount()` is the number of `incref` calls minus
the number of `decref` calls, it is non-negative, every assertion
`refcount_ >= 0` held, and no other field has changed, and the same holds
after every initial segment of the sequence; `incref` followed by `decref`
restores the count; neither call changes another field. -/
theorem refcount_counts {D F : Type} (dbl_max dbl_min : D) (prim : UsdPrim D)
    (context : USDImporterContext F) (calls : List RefCall)
    (hbal : ∀ k : Nat, k ≤ calls.length →
      (calls.take k).count RefCall.decref ≤ (calls.take k).count RefCall.incref)
    (hov : calls.count RefCall.incref < 2147483648) :
    (UsdObjectReader.ctor dbl_max dbl_min prim context).refcount = 0 ∧
    (∀ k : Nat,
      (runRefCalls (calls.take k) (UsdObjectReader.ctor dbl_max dbl_min prim context)).1.refcount =
        ((calls.take k).count RefCall.incref : Int) - ((calls.take k).count RefCall.decref : Int) ∧
      0 ≤ (runRefCalls (calls.take k)
        (UsdObjectReader.ctor dbl_max dbl_min prim context)).1.refcount ∧
      (runRefCalls (calls.take k) (UsdObjectReader.ctor dbl_max dbl_min prim context)).2 = true ∧
      (runRefCalls (calls.take k) (UsdObjectReader.ctor dbl_max dbl_min prim context)).1 =
        { UsdObjectReader.ctor dbl_max dbl_min prim context with
          refcount_ := (runRefCalls (calls.take k)
            (UsdObjectReader.ctor dbl_max dbl_min prim context)).1.refcount }) ∧
    (runRefCalls calls (UsdObjectReader.ctor dbl_max dbl_min prim context)).1.refcount =
      (calls.count RefCall.incref : Int) - (calls.count RefCall.decref : Int) ∧
    0 ≤ (runRefCalls calls (UsdObjectReader.ctor dbl_max dbl_min prim context)).1.refcount ∧
    (runRefCalls calls (UsdObjectReader.ctor dbl_max dbl_min prim context)).2 = true ∧
    (∀ self : UsdObjectReader D F,
      -2147483648 ≤ self.refcount → self.refcount < 2147483647 →
      self.incref.decref.1.refcount = self.refcount) ∧
    (∀ self : UsdObjectReader D F,
      self.incref = { self with refcount_ := self.incref.refcount } ∧
      self.decref.1 = { self with refcount_ := self.decref.1.refcount }) := by
  have hseg : ∀ k : Nat,
      runRefCalls (calls.take k) (UsdObjectReader.ctor dbl_max dbl_min prim context) =
        ({ UsdObjectReader.ctor dbl_max dbl_min prim context with
            refcount_ := ((calls.take k).count RefCall.incref : Int) -
              ((calls.take k).count RefCall.decref : Int) }, true) := by
    intro k
    apply runRefCalls_fresh _ rfl
    · intro j hj
      rw [List.take_take]
      rcases Nat.le_total (min j k) calls.length with h | h
      · exact hbal _ h
      · rw [List.take_of_length_le h]
        have := hbal calls.length (le_refl _)
        rwa [List.take_length] at this
    · have hsub : (calls.take k).Sublist calls := List.take_sublist k calls
      have := hsub.count_le RefCall.incref
      omega
  have hall := hseg calls.length
  rw [List.take_length] at hall
  have hb := hbal calls.length (le_refl _)
  rw [List.take_length] at hb
  refine ⟨rfl, ?_, ?_, ?_, ?_, ?_, ?_⟩
  · intro k
    rw [hseg k]
    refine ⟨rfl, ?_, rfl, rfl⟩
    have hk : (calls.take k).count RefCall.decref ≤ (calls.take k).count RefCall.incref := by
      rcases Nat.le_total k calls.length with h | h
      · exact hbal k h
      · rw [List.take_of_length_le h]
        exact hb
    show (0 : Int) ≤ ((calls.take k).count RefCall.incref : Int) -
      ((calls.take k).count RefCall.decref : Int)
    omega
  · rw [hall]
    rfl
  · rw [hall]
    show (0 : Int) ≤ (calls.count RefCall.incref : Int) - (calls.count RefCall.decref : Int)
    omega
  · rw [hall]
  · intro self h0 h1
    have h0 : -2147483648 ≤ self.refcount_ := h0
    have h1 : self.refcount_ < 2147483647 := h1
    show wrapInt (wrapInt (self.refcount_ + 1) - 1) = self.refcount_
    rw [wrapInt_eq_self (self.refcount_ + 1) (by omega) (by omega),
      wrapInt_eq_self _ (by omega) (by omega)]
    omega
  · intro self
    exact ⟨rfl, rfl⟩

/-- Witness of C5: seven calls on the sample reader, ending with a count of 1,
and an `incref` followed by a `decref` on the sample reader. -/
theorem refcount_counts_witness :
    (∀ k : Nat, k ≤ sampleCalls.length →
      (sampleCalls.take k).count RefCall.decref ≤ (sampleCalls.take k).count RefCall.incref) ∧
    sampleCalls.count RefCall.incref < 2147483648 ∧
    (runRefCalls sampleCalls (UsdObjectReader.ctor 1000 0 sampleMesh sampleContext)).1.refcount =
      1 ∧
    (runRefCalls sampleCalls (UsdObjectReader.ctor 1000 0 sampleMesh sampleContext)).2 = true ∧
    (-2147483648 ≤ sampleReader.refcount ∧ sampleReader.refcount < 2147483647) ∧
    sampleReader.incref.decref.1.refcount = sampleReader.refcount :=
  ⟨by decide, by decide,
    (refcount_counts (1000 : Int) 0 sampleMesh sampleContext sampleCalls (by decide)
      (by decide)).2.2.1,
    (refcount_counts (1000 : Int) 0 sampleMesh sampleContext sampleCalls (by decide)
      (by decide)).2.2.2.2.1,
    by decide,
    (refcount_counts (1000 : Int) 0 sampleMesh sampleContext sampleCalls (by decide)
      (by decide)).2.2.2.2.2.1 sampleReader (by decide) (by decide)⟩

end blender.io.usd
